import Mathlib

/-!
Verification of the beacon-accounting core of `scratch/vanet-routing-compare.cc`
(ns-3.19a VANET routing comparison scenario).

The embedding models positions, velocities and the safety-range threshold as
rationals (the C++ uses `double`, but every operation involved — subtraction,
multiplication, addition, comparison against zero and against the threshold —
is exact on the inputs the claims quantify over), and the four process-wide
counters as naturals (C++ `int`, only ever incremented from 0 or reset to 0).
The external scheduler, mobility oracle and transport are represented by
explicit data: a list of node records (position + velocity, indexed by node
id, mirroring `m_adhocTxNodes`), a list of (address, node) pairs mirroring
`m_adhocTxInterfaces`, and lists of sent / drained packets.
-/

namespace VanetRC

/-- Three-component vector, as ns-3's `Vector` (position or velocity). -/
structure Vec3 where
  x : ℚ
  y : ℚ
  z : ℚ
deriving DecidableEq, Repr

/-- A node as seen through the mobility oracle: current position and velocity
(`GetPosition` / `GetVelocity` of its `MobilityModel`). -/
structure NodeInfo where
  pos : Vec3
  vel : Vec3
deriving DecidableEq, Repr

/-- Embeds `getDistSq (n1, n2)` (lines 300–319): squared planar (x,y)
Euclidean distance between the two nodes' positions; z is ignored. -/
def getDistSq (n1 n2 : NodeInfo) : ℚ :=
  (n2.pos.x - n1.pos.x) * (n2.pos.x - n1.pos.x) +
    (n2.pos.y - n1.pos.y) * (n2.pos.y - n1.pos.y)

/-- The process-wide mutable counters of `VanetRoutingExperiment`:
the four wave-beacon counters plus the interval byte/packet totals that the
sampler also resets (`bytesTotal`, `packetsReceived`). -/
structure WaveState where
  wavePktSendCount : ℕ
  wavePktReceiveCount : ℕ
  wavePktInCoverageReceiveCount : ℕ
  wavePktExpectedReceiveCount : ℕ
  bytesTotal : ℕ
  packetsReceived : ℕ
deriving DecidableEq, Repr

/-- All counters start at zero (lines 200–211). -/
def initState : WaveState :=
  { wavePktSendCount := 0
    wavePktReceiveCount := 0
    wavePktInCoverageReceiveCount := 0
    wavePktExpectedReceiveCount := 0
    bytesTotal := 0
    packetsReceived := 0 }

/-- Embeds the candidate scan of `GenerateWaveTraffic` (lines 408–442):
walk the node container carrying the running node id `rxNodeId`, skip the
sender itself, apply the receiver motion test (`rxVel.x != 0 || rxVel.y != 0`)
and the inclusive squared-distance test, counting the increments applied to
`wavePktExpectedReceiveCount`. -/
def expectedScanFrom (txNodeId : ℕ) (txNode : NodeInfo) (rangeSq : ℚ) :
    ℕ → List NodeInfo → ℕ
  | _, [] => 0
  | rxNodeId, obj :: rest =>
    (if rxNodeId ≠ txNodeId then
      (if obj.vel.x ≠ 0 ∨ obj.vel.y ≠ 0 then
        (if getDistSq txNode obj ≤ rangeSq then 1 else 0)
       else 0)
     else 0) + expectedScanFrom txNodeId txNode rangeSq (rxNodeId + 1) rest

/-- What one invocation of `GenerateWaveTraffic` did: the updated counters,
the payload sizes of the packets passed to `socket->Send` during the tick,
whether `socket->Close` was called, and the `pktCount` argument of the
rescheduled invocation (none when it did not reschedule). -/
structure GenResult where
  st : WaveState
  sentPkts : List ℕ
  socketClosed : Bool
  next : Option ℕ
deriving DecidableEq, Repr

/-- Embeds one invocation of `GenerateWaveTraffic (socket, pktSize, pktCount,
pktInterval)` (lines 374–452). `nodes` is `m_adhocTxNodes` (node id = list
index), `txNodeId` the socket's node id, `rangeSq` is `m_txSafetyRangeSq`.
Returns `none` when the `NS_ASSERT` on the sender's mobility model would fire
(node id out of range), which the spec classifies as fatal. -/
def generateWaveTraffic (nodes : List NodeInfo) (rangeSq : ℚ)
    (txNodeId pktSize pktCount : ℕ) (st : WaveState) : Option GenResult :=
  if pktCount > 0 then
    match nodes.get? txNodeId with
    | none => none
    | some txNode =>
      let senderMoving : ℕ :=
        if txNode.vel.x = 0 ∧ txNode.vel.y = 0 then 0 else 1
      if senderMoving ≠ 0 then
        let st1 := { st with wavePktSendCount := st.wavePktSendCount + 1 }
        let expScan := expectedScanFrom txNodeId txNode rangeSq 0 nodes
        let st2 := { st1 with
          wavePktExpectedReceiveCount := st1.wavePktExpectedReceiveCount + expScan }
        some { st := st2, sentPkts := [pktSize], socketClosed := false,
               next := some (pktCount - 1) }
      else
        some { st := st, sentPkts := [], socketClosed := false,
               next := some (pktCount - 1) }
  else
    some { st := st, sentPkts := [], socketClosed := true, next := none }

/-- An observable event of the generator's self-rescheduling chain:
a beacon send of a given payload size, or the terminal socket close,
each stamped with the simulated time of the invocation that produced it. -/
inductive GenEvent where
  | send (t : ℚ) (size : ℕ)
  | close (t : ℚ)
deriving DecidableEq, Repr

/-- The full event trace of the generator chain started at time `t` with
budget `pktCount`: each invocation contributes its events and, while
`pktCount > 0`, `Simulator::Schedule (pktInterval, …, pktCount - 1)` fires
the next invocation at `t + interval` (lines 445–446). -/
def genTrace (nodes : List NodeInfo) (rangeSq : ℚ)
    (txNodeId pktSize : ℕ) (interval : ℚ) :
    ℕ → ℚ → WaveState → Option (List GenEvent × WaveState)
  | 0, t, st =>
    match generateWaveTraffic nodes rangeSq txNodeId pktSize 0 st with
    | none => none
    | some r =>
      some ((if r.socketClosed then [GenEvent.close t] else []), r.st)
  | k + 1, t, st =>
    match generateWaveTraffic nodes rangeSq txNodeId pktSize (k + 1) st with
    | none => none
    | some r =>
      match genTrace nodes rangeSq txNodeId pktSize interval k (t + interval) r.st with
      | none => none
      | some p =>
        some ((r.sentPkts.map fun sz => GenEvent.send t sz) ++ p.1, p.2)

/-- Embeds the sender-resolution loop of `ReceiveWavePacket` (lines 354–368):
scan the interface table `m_adhocTxInterfaces` in order; for every entry whose
address equals the packet tag's address, fetch that entry's node and apply the
inclusive squared-distance test, counting the increments applied to
`wavePktInCoverageReceiveCount`. Addresses are abstracted as naturals. -/
def coverageScan (table : List (ℕ × NodeInfo)) (rangeSq : ℚ)
    (rxNode : NodeInfo) (addr : ℕ) : ℕ :=
  match table with
  | [] => 0
  | e :: rest =>
    (if e.1 = addr then
      (if getDistSq rxNode e.2 ≤ rangeSq then 1 else 0)
     else 0) + coverageScan rest rangeSq rxNode addr

/-- Embeds the body of the `while ((packet = socket->Recv ()))` loop of
`ReceiveWavePacket` (lines 324–371) for a single drained packet: increment
`wavePktReceiveCount`, test the receiver's motion
(`rxVel.x != 0 || rxVel.y != 0`), and when moving and the packet carries a
`SocketAddressTag` (`pkt = some addr`; `none` models `PeekPacketTag`
returning false), run the resolution scan. -/
def receiveWavePacketOne (table : List (ℕ × NodeInfo)) (rangeSq : ℚ)
    (rxNode : NodeInfo) (pkt : Option ℕ) (st : WaveState) : WaveState :=
  let st1 := { st with wavePktReceiveCount := st.wavePktReceiveCount + 1 }
  let receiverMoving : ℕ :=
    if rxNode.vel.x ≠ 0 ∨ rxNode.vel.y ≠ 0 then 1 else 0
  if receiverMoving = 1 then
    match pkt with
    | some addr =>
      { st1 with wavePktInCoverageReceiveCount :=
        st1.wavePktInCoverageReceiveCount + coverageScan table rangeSq rxNode addr }
    | none => st1
  else st1

/-- Embeds `ReceiveWavePacket (socket)` (lines 321–372): drain the queued
packets in order, processing each one. -/
def receiveWavePacket (table : List (ℕ × NodeInfo)) (rangeSq : ℚ)
    (rxNode : NodeInfo) (pkts : List (Option ℕ)) (st : WaveState) : WaveState :=
  pkts.foldl (fun s p => receiveWavePacketOne table rangeSq rxNode p s) st

/-- One CSV row appended by `CheckThroughput` (lines 473–485), restricted to
the fields this core computes (the sink count, protocol name and transmit
power columns are configuration constants). -/
structure SampleRow where
  simSecond : ℚ
  kbs : ℚ
  packetsReceived : ℕ
  wavePktReceiveCount : ℕ
  wavePktSendCount : ℕ
  wavePDR : ℚ
  wavePktExpectedReceiveCount : ℕ
  wavePktInCoverageReceiveCount : ℕ
  wavePDR2 : ℚ
deriving DecidableEq, Repr

/-- Embeds `CheckThroughput ()` (lines 454–493): compute the interval
throughput and the two guarded PDR ratios, emit the row, reset the
interval-scoped counters (`bytesTotal`, `packetsReceived`,
`wavePktReceiveCount`, `wavePktSendCount`) and leave the cumulative
expected / in-coverage counters untouched; it then reschedules itself
for +1 second unconditionally. -/
def checkThroughput (t : ℚ) (st : WaveState) : SampleRow × WaveState :=
  let kbs : ℚ := (st.bytesTotal * 8 : ℚ) / 1000
  let wavePDR : ℚ :=
    if st.wavePktSendCount > 0 then
      (st.wavePktReceiveCount : ℚ) / (st.wavePktSendCount : ℚ)
    else 0
  let wavePDR2 : ℚ :=
    if st.wavePktExpectedReceiveCount > 0 then
      (st.wavePktInCoverageReceiveCount : ℚ) / (st.wavePktExpectedReceiveCount : ℚ)
    else 0
  let row : SampleRow :=
    { simSecond := t
      kbs := kbs
      packetsReceived := st.packetsReceived
      wavePktReceiveCount := st.wavePktReceiveCount
      wavePktSendCount := st.wavePktSendCount
      wavePDR := wavePDR
      wavePktExpectedReceiveCount := st.wavePktExpectedReceiveCount
      wavePktInCoverageReceiveCount := st.wavePktInCoverageReceiveCount
      wavePDR2 := wavePDR2 }
  (row, { st with bytesTotal := 0, packetsReceived := 0,
                  wavePktReceiveCount := 0, wavePktSendCount := 0 })

/-- Embeds the final cumulative PDR computation of
`VanetRoutingExperiment::Run` (lines 1023–1027). -/
def bsm_pdr (st : WaveState) : ℚ :=
  if st.wavePktExpectedReceiveCount > 0 then
    (st.wavePktInCoverageReceiveCount : ℚ) / (st.wavePktExpectedReceiveCount : ℚ)
  else 0

/-- Spec-side count for the expected-coverage scan, phrased as the claims
phrase it: the number of nodes of the transmitter set, other than the sender,
that are moving (x or y velocity nonzero) and at squared planar distance at
most the threshold from the sender. Stated over the id-enumerated list so it
can be compared with the loop embedding `expectedScanFrom`. -/
def specEligibleCount (nodes : List NodeInfo) (txNodeId : ℕ)
    (txNode : NodeInfo) (rangeSq : ℚ) : ℕ :=
  nodes.enum.countP fun p =>
    decide (p.1 ≠ txNodeId ∧ (p.2.vel.x ≠ 0 ∨ p.2.vel.y ≠ 0) ∧
      getDistSq txNode p.2 ≤ rangeSq)

/-- A transmitter of the claimed Scenario 1: position (x, y, 0), moving with
velocity (1, 0, 0). -/
def mkTx (x y : ℚ) : NodeInfo := ⟨⟨x, y, 0⟩, ⟨1, 0, 0⟩⟩

/-- Scenario 1 node container: ten moving transmitters, each at planar
distance exactly 50 from the origin, followed by the fixed (stationary)
observer at the origin (node id 10). -/
def scen1Nodes : List NodeInfo :=
  [mkTx 50 0, mkTx 0 50, mkTx (-50) 0, mkTx 0 (-50),
   mkTx 30 40, mkTx 40 30, mkTx (-30) 40, mkTx (-40) 30,
   mkTx 30 (-40), mkTx (-40) (-30),
   ⟨⟨0, 0, 0⟩, ⟨0, 0, 0⟩⟩]

/-- Scenario 1 after all sends: each of the ten transmitters fires its single
beacon (budget 1) with safety range 100, i.e. `m_txSafetyRangeSq = 10000`. -/
def scen1AfterSends : Option WaveState :=
  (List.range 10).foldlM
    (fun st i => (generateWaveTraffic scen1Nodes 10000 i 200 1 st).map GenResult.st)
    initState

/-- Scenario 1 interface table: address `i` belongs to transmitter `i`. -/
def scen1Table : List (ℕ × NodeInfo) := (scen1Nodes.take 10).enum

/-- The Scenario 1 observer at receipt time: still at the origin, now moving. -/
def obsMoving : NodeInfo := ⟨⟨0, 0, 0⟩, ⟨1, 0, 0⟩⟩

/-- Scenario 1 after delivery: every one of the ten beacons is delivered to
the (now moving) observer, each carrying its sender's address tag. -/
def scen1Final : Option WaveState :=
  scen1AfterSends.map fun st =>
    receiveWavePacket scen1Table 10000 obsMoving ((List.range 10).map some) st

/-- Scenario 3 node container: a single moving sender. -/
def scen3Nodes : List NodeInfo := [⟨⟨0, 0, 0⟩, ⟨5, 0, 0⟩⟩]

/-- A moving node at the origin (witness data). -/
def wTx : NodeInfo := ⟨⟨0, 0, 0⟩, ⟨1, 0, 0⟩⟩

/-- A moving node at (3, 4): planar squared distance from the origin is
exactly 25 (witness data, exercising the inclusive boundary). -/
def wTx2 : NodeInfo := ⟨⟨3, 4, 0⟩, ⟨1, 0, 0⟩⟩

/-- A stationary node at (3, 4) (witness data). -/
def wStat : NodeInfo := ⟨⟨3, 4, 0⟩, ⟨0, 0, 0⟩⟩

/-- A node at (3, 4) moving only along z (witness data for the
planar-only motion classification). -/
def wZonly : NodeInfo := ⟨⟨3, 4, 0⟩, ⟨0, 0, 5⟩⟩

/-- Witness node container: a moving sender at the origin and a moving
candidate at planar squared distance exactly 25. -/
def wNodes : List NodeInfo := [wTx, wTx2]

/-- Witness node container with a stationary sender at index 0. -/
def wNodesStat : List NodeInfo := [wStat, wTx2]

/-- Witness node container with a z-only-moving sender at index 0. -/
def wNodesZ : List NodeInfo := [wZonly, wTx2]

/-- Witness interface table: address 7 resolves to the node at (3, 4). -/
def wTable : List (ℕ × NodeInfo) := [(7, wTx2)]

/-! ## Helper lemmas -/

set_option allowUnsafeReducibility true

attribute [local semireducible] Rat.add Rat.mul Rat.sub Rat.inv Rat.ofScientific

/-- Appending a node whose x and y velocity components are zero to the
scanned container never changes the candidate scan's count, whatever id the
appended node receives. -/
lemma expectedScanFrom_append_zvel (txNodeId : ℕ) (txNode n : NodeInfo)
    (rangeSq : ℚ) (hx : n.vel.x = 0) (hy : n.vel.y = 0) (l : List NodeInfo) :
    ∀ j, expectedScanFrom txNodeId txNode rangeSq j (l ++ [n])
      = expectedScanFrom txNodeId txNode rangeSq j l := by
  induction l with
  | nil => intro j; simp [expectedScanFrom, hx, hy]
  | cons a l ih =>
    intro j
    simp only [List.cons_append, expectedScanFrom, List.append_eq, ih (j + 1)]

/-- The loop embedding of the candidate scan counts exactly the id-enumerated
nodes satisfying the spec's eligibility predicate. -/
lemma expectedScanFrom_eq_countP (txNodeId : ℕ) (txNode : NodeInfo)
    (rangeSq : ℚ) (l : List NodeInfo) :
    ∀ j, expectedScanFrom txNodeId txNode rangeSq j l
      = (List.enumFrom j l).countP fun p =>
          decide (p.1 ≠ txNodeId ∧ (p.2.vel.x ≠ 0 ∨ p.2.vel.y ≠ 0) ∧
            getDistSq txNode p.2 ≤ rangeSq) := by
  induction l with
  | nil => intro j; simp [expectedScanFrom]
  | cons a l ih =>
    intro j
    simp only [expectedScanFrom, List.enumFrom, List.countP_cons, ih (j + 1)]
    by_cases h1 : j ≠ txNodeId <;>
      by_cases h2 : a.vel.x ≠ 0 ∨ a.vel.y ≠ 0 <;>
        by_cases h3 : getDistSq txNode a ≤ rangeSq <;>
          simp [h1, h2, h3] <;> omega

/-- The candidate scan from node id 0 computes the spec-side count. -/
lemma expectedScanFrom_eq_specEligibleCount (txNodeId : ℕ) (txNode : NodeInfo)
    (rangeSq : ℚ) (nodes : List NodeInfo) :
    expectedScanFrom txNodeId txNode rangeSq 0 nodes
      = specEligibleCount nodes txNodeId txNode rangeSq := by
  rw [specEligibleCount, List.enum, expectedScanFrom_eq_countP]

/-- When no interface-table entry carries the tag's address, the resolution
scan finds nothing. -/
lemma coverageScan_eq_zero (table : List (ℕ × NodeInfo)) (rangeSq : ℚ)
    (rxNode : NodeInfo) (addr : ℕ) (h : ∀ e ∈ table, e.1 ≠ addr) :
    coverageScan table rangeSq rxNode addr = 0 := by
  induction table with
  | nil => rfl
  | cons e rest ih =>
    have he : e.1 ≠ addr := h e (List.mem_cons_self e rest)
    simp only [coverageScan, he, if_false,
      ih fun x hx => h x (List.mem_cons_of_mem e hx)]

/-- When the interface-table addresses are pairwise distinct and the tag's
address belongs to `txNode`, the resolution scan reduces to the single
inclusive distance test against `txNode`. -/
lemma coverageScan_resolved (table : List (ℕ × NodeInfo)) (rangeSq : ℚ)
    (rxNode txNode : NodeInfo) (addr : ℕ)
    (hnodup : (table.map Prod.fst).Nodup) (hmem : (addr, txNode) ∈ table) :
    coverageScan table rangeSq rxNode addr
      = if getDistSq rxNode txNode ≤ rangeSq then 1 else 0 := by
  induction table with
  | nil => simp at hmem
  | cons e rest ih =>
    simp only [List.map_cons, List.nodup_cons] at hnodup
    rcases List.mem_cons.mp hmem with heq | hrest
    · subst heq
      have hnone : ∀ x ∈ rest, x.1 ≠ addr := by
        intro x hx hx1
        have hmm : x.1 ∈ rest.map Prod.fst := List.mem_map_of_mem Prod.fst hx
        rw [hx1] at hmm
        exact hnodup.1 hmm
      simp [coverageScan, coverageScan_eq_zero rest rangeSq rxNode addr hnone]
    · have he : e.1 ≠ addr := by
        intro hx1
        have hmm : (addr, txNode).1 ∈ rest.map Prod.fst :=
          List.mem_map_of_mem Prod.fst hrest
        rw [← hx1] at hmm
        exact hnodup.1 hmm
      simp only [coverageScan, he, if_false, ih hnodup.2 hrest, Nat.zero_add]

/-- Each drained beacon increments `wavePktReceiveCount` by exactly one,
whatever the receiver's motion state, tag and distance. -/
lemma receiveWavePacketOne_received (table : List (ℕ × NodeInfo)) (rangeSq : ℚ)
    (rxNode : NodeInfo) (pkt : Option ℕ) (st : WaveState) :
    (receiveWavePacketOne table rangeSq rxNode pkt st).wavePktReceiveCount
      = st.wavePktReceiveCount + 1 := by
  unfold receiveWavePacketOne
  split <;> cases pkt <;> rfl

/-- A stationary receiver's drained beacon changes nothing but
`wavePktReceiveCount`. -/
lemma receiveWavePacketOne_stationary (table : List (ℕ × NodeInfo))
    (rangeSq : ℚ) (rxNode : NodeInfo) (pkt : Option ℕ) (st : WaveState)
    (hx : rxNode.vel.x = 0) (hy : rxNode.vel.y = 0) :
    receiveWavePacketOne table rangeSq rxNode pkt st
      = { st with wavePktReceiveCount := st.wavePktReceiveCount + 1 } := by
  unfold receiveWavePacketOne
  simp [hx, hy]

/-- Draining a queue increments `wavePktReceiveCount` once per beacon. -/
lemma receiveWavePacket_received (table : List (ℕ × NodeInfo)) (rangeSq : ℚ)
    (rxNode : NodeInfo) (pkts : List (Option ℕ)) :
    ∀ st : WaveState,
      (receiveWavePacket table rangeSq rxNode pkts st).wavePktReceiveCount
        = st.wavePktReceiveCount + pkts.length := by
  induction pkts with
  | nil => intro st; rfl
  | cons p rest ih =>
    intro st
    show (receiveWavePacket table rangeSq rxNode rest
      (receiveWavePacketOne table rangeSq rxNode p st)).wavePktReceiveCount = _
    rw [ih, receiveWavePacketOne_received, List.length_cons]
    omega

/-- Draining a queue at a stationary receiver changes nothing but
`wavePktReceiveCount`. -/
lemma receiveWavePacket_stationary (table : List (ℕ × NodeInfo)) (rangeSq : ℚ)
    (rxNode : NodeInfo) (pkts : List (Option ℕ))
    (hx : rxNode.vel.x = 0) (hy : rxNode.vel.y = 0) :
    ∀ st : WaveState,
      receiveWavePacket table rangeSq rxNode pkts st
        = { st with wavePktReceiveCount := st.wavePktReceiveCount + pkts.length } := by
  induction pkts with
  | nil => intro st; rfl
  | cons p rest ih =>
    intro st
    show receiveWavePacket table rangeSq rxNode rest
      (receiveWavePacketOne table rangeSq rxNode p st) = _
    rw [receiveWavePacketOne_stationary table rangeSq rxNode p st hx hy, ih]
    simp [List.length_cons]
    omega

/-! ## Claim theorems -/

/-- C1: at every generator tick with `remainingCount > 0` whose sender is
moving (x or y velocity nonzero), exactly one beacon of `payloadSize` bytes
is sent, `wavePktSendCount` increments by exactly one, and
`wavePktExpectedReceiveCount` increments by exactly the number of other nodes
of the transmitter set (excluding the sender) that are moving by the same
planar test and at squared planar distance at most the safety-range
threshold from the sender; the receive-side counters are untouched. -/
theorem C1_moving_sender_tick (nodes : List NodeInfo) (rangeSq : ℚ)
    (txNodeId pktSize pktCount : ℕ) (st : WaveState) (txNode : NodeInfo)
    (hpos : 0 < pktCount)
    (hget : nodes.get? txNodeId = some txNode)
    (hmov : ¬ (txNode.vel.x = 0 ∧ txNode.vel.y = 0)) :
    (generateWaveTraffic nodes rangeSq txNodeId pktSize pktCount st).map
        GenResult.sentPkts = some [pktSize] ∧
    (generateWaveTraffic nodes rangeSq txNodeId pktSize pktCount st).map
        (fun r => r.st.wavePktSendCount) = some (st.wavePktSendCount + 1) ∧
    (generateWaveTraffic nodes rangeSq txNodeId pktSize pktCount st).map
        (fun r => r.st.wavePktExpectedReceiveCount)
      = some (st.wavePktExpectedReceiveCount
          + specEligibleCount nodes txNodeId txNode rangeSq) ∧
    (generateWaveTraffic nodes rangeSq txNodeId pktSize pktCount st).map
        (fun r => r.st.wavePktReceiveCount) = some st.wavePktReceiveCount ∧
    (generateWaveTraffic nodes rangeSq txNodeId pktSize pktCount st).map
        (fun r => r.st.wavePktInCoverageReceiveCount)
      = some st.wavePktInCoverageReceiveCount := by
  simp only [generateWaveTraffic, if_pos hpos, hget, hmov, if_false,
    expectedScanFrom_eq_specEligibleCount]
  simp [hmov]

/-- C1 witness: a moving sender at the origin with budget 1 and one moving
candidate at squared distance 25 = threshold sends one 200-byte beacon,
bringing `wavePktSendCount` to 1 and `wavePktExpectedReceiveCount` up by the
eligible-candidate count. -/
theorem C1_moving_sender_tick_witness :
    (0 < 1 ∧ wNodes.get? 0 = some wTx ∧ ¬ (wTx.vel.x = 0 ∧ wTx.vel.y = 0)) ∧
    (generateWaveTraffic wNodes 25 0 200 1 initState).map
        GenResult.sentPkts = some [200] ∧
    (generateWaveTraffic wNodes 25 0 200 1 initState).map
        (fun r => r.st.wavePktSendCount)
      = some (initState.wavePktSendCount + 1) ∧
    (generateWaveTraffic wNodes 25 0 200 1 initState).map
        (fun r => r.st.wavePktExpectedReceiveCount)
      = some (initState.wavePktExpectedReceiveCount
          + specEligibleCount wNodes 0 wTx 25) ∧
    (generateWaveTraffic wNodes 25 0 200 1 initState).map
        (fun r => r.st.wavePktReceiveCount)
      = some initState.wavePktReceiveCount ∧
    (generateWaveTraffic wNodes 25 0 200 1 initState).map
        (fun r => r.st.wavePktInCoverageReceiveCount)
      = some initState.wavePktInCoverageReceiveCount := by
  refine ⟨⟨by decide, rfl, by decide⟩, ?_⟩
  exact C1_moving_sender_tick wNodes 25 0 200 1 initState wTx (by decide) rfl
    (by decide)

/-- C2: a beacon drained by a moving receiver and carrying an address that
resolves (uniquely) to `txNode` in the interface table increments
`wavePktInCoverageReceiveCount` if and only if the squared planar distance
between receiver and resolved sender is at most the safety-range-squared
threshold, the boundary included. -/
theorem C2_in_coverage_iff (table : List (ℕ × NodeInfo)) (rangeSq : ℚ)
    (rxNode txNode : NodeInfo) (addr : ℕ) (st : WaveState)
    (hmov : rxNode.vel.x ≠ 0 ∨ rxNode.vel.y ≠ 0)
    (hres : (addr, txNode) ∈ table)
    (hnodup : (table.map Prod.fst).Nodup) :
    (receiveWavePacketOne table rangeSq rxNode (some addr) st).wavePktInCoverageReceiveCount
        = st.wavePktInCoverageReceiveCount + 1
      ↔ getDistSq rxNode txNode ≤ rangeSq := by
  unfold receiveWavePacketOne
  simp only [hmov, if_true, if_pos,
    coverageScan_resolved table rangeSq rxNode txNode addr hnodup hres]
  rcases Classical.em (getDistSq rxNode txNode ≤ rangeSq) with h | h
  · simp [hmov, h]
  · simp [hmov, h]

/-- C2 witness: the inclusive boundary — a moving receiver at the origin,
resolved sender at (3, 4), threshold 25, squared distance exactly 25:
the beacon is counted in coverage. -/
theorem C2_in_coverage_iff_witness :
    ((wTx.vel.x ≠ 0 ∨ wTx.vel.y ≠ 0) ∧ ((7, wTx2) ∈ wTable) ∧
      (wTable.map Prod.fst).Nodup ∧ getDistSq wTx wTx2 = 25) ∧
    (receiveWavePacketOne wTable 25 wTx (some 7) initState).wavePktInCoverageReceiveCount
      = initState.wavePktInCoverageReceiveCount + 1 := by
  refine ⟨⟨by decide, by decide, by decide, by decide⟩, ?_⟩
  exact (C2_in_coverage_iff wTable 25 wTx wTx2 7 initState (by decide)
    (by decide) (by decide)).mpr (by decide)

/-- C3: at every generator tick with `remainingCount > 0` whose sender is
stationary (x and y velocity both exactly zero), no packet is sent, the
socket stays open, all counters are unchanged, and the task still
reschedules after the interval with `remainingCount - 1`. -/
theorem C3_stationary_sender_tick (nodes : List NodeInfo) (rangeSq : ℚ)
    (txNodeId pktSize pktCount : ℕ) (st : WaveState) (txNode : NodeInfo)
    (interval t : ℚ)
    (hpos : 0 < pktCount)
    (hget : nodes.get? txNodeId = some txNode)
    (hx : txNode.vel.x = 0) (hy : txNode.vel.y = 0) :
    generateWaveTraffic nodes rangeSq txNodeId pktSize pktCount st
      = some { st := st, sentPkts := [], socketClosed := false,
               next := some (pktCount - 1) } ∧
    genTrace nodes rangeSq txNodeId pktSize interval pktCount t st
      = genTrace nodes rangeSq txNodeId pktSize interval (pktCount - 1)
          (t + interval) st := by
  obtain ⟨k, rfl⟩ : ∃ k, pktCount = k + 1 :=
    ⟨pktCount - 1, (Nat.succ_pred_eq_of_pos hpos).symm⟩
  have hgen : generateWaveTraffic nodes rangeSq txNodeId pktSize (k + 1) st
      = some { st := st, sentPkts := [], socketClosed := false,
               next := some k } := by
    simp only [generateWaveTraffic, if_pos hpos, hget]
    simp [hx, hy]
  refine ⟨hgen, ?_⟩
  simp only [Nat.add_sub_cancel, genTrace, hgen]
  cases h : genTrace nodes rangeSq txNodeId pktSize interval k (t + interval) st with
  | none => simp [h]
  | some p => simp [h]

/-- C3 witness: a stationary sender with budget 2 sends nothing, keeps all
counters, and reschedules with budget 1 after the 1-second interval. -/
theorem C3_stationary_sender_tick_witness :
    (0 < 2 ∧ wNodesStat.get? 0 = some wStat ∧ wStat.vel.x = 0 ∧
      wStat.vel.y = 0) ∧
    generateWaveTraffic wNodesStat 25 0 200 2 initState
      = some { st := initState, sentPkts := [], socketClosed := false,
               next := some 1 } ∧
    genTrace wNodesStat 25 0 200 1 2 5 initState
      = genTrace wNodesStat 25 0 200 1 1 (5 + 1) initState := by
  refine ⟨⟨by decide, rfl, by decide, by decide⟩, ?_⟩
  exact C3_stationary_sender_tick wNodesStat 25 0 200 2 initState wStat 1 5
    (by decide) rfl (by decide) (by decide)

/-- C4: draining a queue of beacons increments `wavePktReceiveCount` exactly
once per beacon, regardless of motion or distance; and when the receiver is
stationary (x and y velocity both zero) the drained beacons change nothing
else — they count toward `wavePktReceiveCount` but never toward
`wavePktInCoverageReceiveCount`. -/
theorem C4_received_once_per_beacon (table : List (ℕ × NodeInfo))
    (rangeSq : ℚ) (rxNode : NodeInfo) (pkts : List (Option ℕ))
    (st : WaveState) :
    (receiveWavePacket table rangeSq rxNode pkts st).wavePktReceiveCount
      = st.wavePktReceiveCount + pkts.length ∧
    (rxNode.vel.x = 0 ∧ rxNode.vel.y = 0 →
      receiveWavePacket table rangeSq rxNode pkts st
        = { st with wavePktReceiveCount := st.wavePktReceiveCount + pkts.length }) := by
  exact ⟨receiveWavePacket_received table rangeSq rxNode pkts st,
    fun h => receiveWavePacket_stationary table rangeSq rxNode pkts h.1 h.2 st⟩

/-- C4 witness: a stationary receiver drains two beacons (one of them
resolvable and in range): `wavePktReceiveCount` rises by 2 and nothing else
changes. -/
theorem C4_received_once_per_beacon_witness :
    (wStat.vel.x = 0 ∧ wStat.vel.y = 0) ∧
    (receiveWavePacket wTable 25 wStat [some 7, none] initState).wavePktReceiveCount
      = initState.wavePktReceiveCount + 2 ∧
    receiveWavePacket wTable 25 wStat [some 7, none] initState
      = { initState with
          wavePktReceiveCount := initState.wavePktReceiveCount + 2 } := by
  refine ⟨⟨by decide, by decide⟩, ?_, ?_⟩
  · exact (C4_received_once_per_beacon wTable 25 wStat [some 7, none]
      initState).1
  · exact (C4_received_once_per_beacon wTable 25 wStat [some 7, none]
      initState).2 ⟨by decide, by decide⟩

/-- C5 counterexample: in the claimed Scenario 3 (budget 3 beacons, 1 s
interval, start t = 1.0, moving sender) the generator's event trace is
[send@1, send@2, send@3, close@4]: an event — the terminal invocation that
closes the socket — does occur at t = 4.0, refuting "no event occurs at
t=4.0". -/
theorem C5_counterexample :
    (genTrace scen3Nodes (145 * 145) 0 200 1 3 1 initState).map Prod.fst
      = some [GenEvent.send 1 200, GenEvent.send 2 200, GenEvent.send 3 200,
              GenEvent.close 4] ∧
    GenEvent.close 4 ∈ [GenEvent.send 1 200, GenEvent.send 2 200,
      GenEvent.send 3 200, GenEvent.close 4] := by
  exact ⟨by decide, by decide⟩

/-- C5 (amended): a generator invoked with `remainingCount == 0` closes the
sender's transport endpoint, sends nothing, touches no counter, and does not
reschedule (terminal state); with a budget of 3 beacons at 1 s interval
starting at t = 1.0, sends occur at exactly t = 1.0, 2.0, 3.0, and the only
event at t = 4.0 is the terminal invocation that closes the socket, after
which nothing further occurs. -/
theorem C5_terminal_close (nodes : List NodeInfo) (rangeSq : ℚ)
    (txNodeId pktSize : ℕ) (st : WaveState) :
    generateWaveTraffic nodes rangeSq txNodeId pktSize 0 st
      = some { st := st, sentPkts := [], socketClosed := true, next := none } ∧
    (genTrace scen3Nodes (145 * 145) 0 200 1 3 1 initState).map Prod.fst
      = some [GenEvent.send 1 200, GenEvent.send 2 200, GenEvent.send 3 200,
              GenEvent.close 4] := by
  exact ⟨rfl, by decide⟩

/-- C6: for every state, the sampler resets the interval-scoped counters
(`wavePktReceiveCount`, `wavePktSendCount`, `bytesTotal`,
`packetsReceived`) to zero and leaves the cumulative counters
(`wavePktExpectedReceiveCount`, `wavePktInCoverageReceiveCount`) unchanged;
hence a second sample with no intervening sends or receives always has
interval PDR = 0 and the same cumulative PDR as the first, and when the
first sample is itself preceded by no sends its interval PDR is 0 as
well — two rows with interval PDR = 0 and identical cumulative PDR. -/
theorem C6_sampler_reset_idempotent (t1 t2 : ℚ) (st : WaveState) :
    (checkThroughput t1 st).2.wavePktReceiveCount = 0 ∧
    (checkThroughput t1 st).2.wavePktSendCount = 0 ∧
    (checkThroughput t1 st).2.bytesTotal = 0 ∧
    (checkThroughput t1 st).2.packetsReceived = 0 ∧
    (checkThroughput t1 st).2.wavePktExpectedReceiveCount
      = st.wavePktExpectedReceiveCount ∧
    (checkThroughput t1 st).2.wavePktInCoverageReceiveCount
      = st.wavePktInCoverageReceiveCount ∧
    (checkThroughput t2 (checkThroughput t1 st).2).1.wavePDR = 0 ∧
    (checkThroughput t2 (checkThroughput t1 st).2).1.wavePDR2
      = (checkThroughput t1 st).1.wavePDR2 ∧
    (st.wavePktSendCount = 0 → (checkThroughput t1 st).1.wavePDR = 0) := by
  refine ⟨rfl, rfl, rfl, rfl, rfl, rfl, ?_, ?_, fun h => ?_⟩
  · simp [checkThroughput]
  · simp [checkThroughput]
  · simp [checkThroughput, h]

/-- C6 witness: sampling at time 1 from a state with nonzero interval
counters (`sent` = 4, `received` = 3, 5 interval bytes, 7 interval packets)
and nonzero cumulative counters really zeroes the four interval counters
and keeps the cumulative ones, and the follow-up sample at time 2 has
interval PDR 0 and the same cumulative PDR; on a quiet state (`sent` = 0)
the first row's interval PDR is 0 as well. -/
theorem C6_sampler_reset_idempotent_witness :
    (checkThroughput 1 ⟨4, 3, 2, 3, 5, 7⟩).2.wavePktReceiveCount = 0 ∧
    (checkThroughput 1 ⟨4, 3, 2, 3, 5, 7⟩).2.wavePktSendCount = 0 ∧
    (checkThroughput 1 ⟨4, 3, 2, 3, 5, 7⟩).2.bytesTotal = 0 ∧
    (checkThroughput 1 ⟨4, 3, 2, 3, 5, 7⟩).2.packetsReceived = 0 ∧
    (checkThroughput 1 ⟨4, 3, 2, 3, 5, 7⟩).2.wavePktExpectedReceiveCount
      = WaveState.wavePktExpectedReceiveCount ⟨4, 3, 2, 3, 5, 7⟩ ∧
    (checkThroughput 1 ⟨4, 3, 2, 3, 5, 7⟩).2.wavePktInCoverageReceiveCount
      = WaveState.wavePktInCoverageReceiveCount ⟨4, 3, 2, 3, 5, 7⟩ ∧
    (checkThroughput 2 (checkThroughput 1 ⟨4, 3, 2, 3, 5, 7⟩).2).1.wavePDR = 0 ∧
    (checkThroughput 2 (checkThroughput 1 ⟨4, 3, 2, 3, 5, 7⟩).2).1.wavePDR2
      = (checkThroughput 1 ⟨4, 3, 2, 3, 5, 7⟩).1.wavePDR2 ∧
    (WaveState.wavePktSendCount ⟨0, 0, 2, 3, 5, 7⟩ = 0 ∧
      (checkThroughput 1 ⟨0, 0, 2, 3, 5, 7⟩).1.wavePDR = 0) := by
  obtain ⟨a1, a2, a3, a4, a5, a6, a7, a8, -⟩ :=
    C6_sampler_reset_idempotent 1 2 ⟨4, 3, 2, 3, 5, 7⟩
  refine ⟨a1, a2, a3, a4, a5, a6, a7, a8, rfl, ?_⟩
  exact (C6_sampler_reset_idempotent 1 2 ⟨0, 0, 2, 3, 5, 7⟩).2.2.2.2.2.2.2.2 rfl

/-- C7: every PDR ratio computed with a zero denominator is reported as
exactly 0 — the interval PDR when `wavePktSendCount = 0`, the cumulative PDR
when `wavePktExpectedReceiveCount = 0`, both at sampling time and at run
end. -/
theorem C7_zero_denominator_safe (t : ℚ) (st : WaveState) :
    (st.wavePktSendCount = 0 → (checkThroughput t st).1.wavePDR = 0) ∧
    (st.wavePktExpectedReceiveCount = 0 →
      (checkThroughput t st).1.wavePDR2 = 0) ∧
    (st.wavePktExpectedReceiveCount = 0 → bsm_pdr st = 0) := by
  refine ⟨fun h => ?_, fun h => ?_, fun h => ?_⟩ <;>
    simp [checkThroughput, bsm_pdr, h]

/-- C7 witness: on the all-zero initial state, the interval PDR, the sampled
cumulative PDR and the run-end cumulative PDR are all reported as 0. -/
theorem C7_zero_denominator_safe_witness :
    (initState.wavePktSendCount = 0 ∧
      initState.wavePktExpectedReceiveCount = 0) ∧
    (checkThroughput 1 initState).1.wavePDR = 0 ∧
    (checkThroughput 1 initState).1.wavePDR2 = 0 ∧
    bsm_pdr initState = 0 := by
  refine ⟨⟨rfl, rfl⟩, ?_, ?_, ?_⟩
  · exact (C7_zero_denominator_safe 1 initState).1 rfl
  · exact (C7_zero_denominator_safe 1 initState).2.1 rfl
  · exact (C7_zero_denominator_safe 1 initState).2.2 rfl

/-- C8 counterexample: in the claimed Scenario 1 (ten transmitters at planar
distance 50 from a fixed stationary observer, all moving, safety range 100,
budget one beacon each) `wavePktExpectedReceiveCount` after all sends is 90,
not 10: every pair of the ten moving transmitters is necessarily within
distance 100 of each other (both lie within 50 of the observer), so each of
the ten sends counts the nine other moving transmitters, while the
stationary observer is never counted. -/
theorem C8_counterexample :
    scen1AfterSends.map WaveState.wavePktExpectedReceiveCount = some 90 ∧
    (90 : ℕ) ≠ 10 := by
  exact ⟨by decide, by decide⟩

/-- C8 (amended): in Scenario 1, `wavePktExpectedReceiveCount` equals 90
after all sends (9 eligible moving candidates per sender; the stationary
observer is never counted); if every beacon is then delivered to the
observer and the observer is moving at receipt time,
`wavePktInCoverageReceiveCount` equals 10 and the cumulative PDR equals
10 / 90 = 1/9, not 1.0. -/
theorem C8_scenario_corrected :
    scen1AfterSends.map WaveState.wavePktExpectedReceiveCount = some 90 ∧
    scen1Final.map WaveState.wavePktInCoverageReceiveCount = some 10 ∧
    scen1Final.map bsm_pdr = some (1 / 9 : ℚ) := by
  exact ⟨by decide, by decide, by decide⟩

/-- C9: a drained beacon whose sender address cannot be resolved against the
interface table — no `SocketAddressTag` at all, or an address matching no
table entry — still increments `wavePktReceiveCount` by one, leaves
`wavePktInCoverageReceiveCount` untouched, and the handler goes on to
process the remaining queued beacons. -/
theorem C9_unresolvable_sender (table : List (ℕ × NodeInfo)) (rangeSq : ℚ)
    (rxNode : NodeInfo) (pkt : Option ℕ) (addr : ℕ) (st : WaveState)
    (rest : List (Option ℕ))
    (h : pkt = none ∨ (pkt = some addr ∧ ∀ e ∈ table, e.1 ≠ addr)) :
    (receiveWavePacketOne table rangeSq rxNode pkt st).wavePktReceiveCount
      = st.wavePktReceiveCount + 1 ∧
    (receiveWavePacketOne table rangeSq rxNode pkt st).wavePktInCoverageReceiveCount
      = st.wavePktInCoverageReceiveCount ∧
    receiveWavePacket table rangeSq rxNode (pkt :: rest) st
      = receiveWavePacket table rangeSq rxNode rest
          (receiveWavePacketOne table rangeSq rxNode pkt st) := by
  refine ⟨receiveWavePacketOne_received table rangeSq rxNode pkt st, ?_, rfl⟩
  rcases h with rfl | ⟨rfl, hnone⟩
  · simp only [receiveWavePacketOne]
    split
    · rfl
    · rfl
  · simp only [receiveWavePacketOne]
    split
    · simp [coverageScan_eq_zero table rangeSq rxNode addr hnone]
    · rfl

/-- C9 witness: a moving receiver drains a beacon tagged with address 99,
which no interface-table entry carries: `wavePktReceiveCount` rises to 1,
`wavePktInCoverageReceiveCount` stays 0, and the handler continues with the
rest of the queue. -/
theorem C9_unresolvable_sender_witness :
    (some 99 = none ∨ (some (99 : ℕ) = some 99 ∧ ∀ e ∈ wTable, e.1 ≠ 99)) ∧
    (receiveWavePacketOne wTable 25 wTx (some 99) initState).wavePktReceiveCount
      = initState.wavePktReceiveCount + 1 ∧
    (receiveWavePacketOne wTable 25 wTx (some 99) initState).wavePktInCoverageReceiveCount
      = initState.wavePktInCoverageReceiveCount ∧
    receiveWavePacket wTable 25 wTx [some 99, none] initState
      = receiveWavePacket wTable 25 wTx [none]
          (receiveWavePacketOne wTable 25 wTx (some 99) initState) := by
  refine ⟨Or.inr ⟨rfl, by decide⟩, ?_⟩
  exact C9_unresolvable_sender wTable 25 wTx (some 99) 99 initState [none]
    (Or.inr ⟨rfl, by decide⟩)

/-- C10: the motion classification of all three gates tests only the x and y
velocity components, so a node with velocity (0, 0, vz), vz ≠ 0, is
classified stationary everywhere: as a sender it sends nothing and changes
no counter; as a candidate it is never counted toward
`wavePktExpectedReceiveCount` (appending it to the scanned container changes
nothing); as a receiver its drained beacons are counted as received but
never evaluated for in-coverage accounting. -/
theorem C10_z_velocity_classified_stationary
    (p q : Vec3) (vz : ℚ) (nodes others : List NodeInfo) (rangeSq : ℚ)
    (txNodeId pktSize pktCount j : ℕ) (st : WaveState) (txNode : NodeInfo)
    (table : List (ℕ × NodeInfo)) (pkts : List (Option ℕ))
    (hvz : vz ≠ 0)
    (hpos : 0 < pktCount)
    (hget : nodes.get? txNodeId = some ⟨p, ⟨0, 0, vz⟩⟩) :
    (generateWaveTraffic nodes rangeSq txNodeId pktSize pktCount st).map
        GenResult.st = some st ∧
    (generateWaveTraffic nodes rangeSq txNodeId pktSize pktCount st).map
        GenResult.sentPkts = some [] ∧
    expectedScanFrom txNodeId txNode rangeSq j (others ++ [⟨q, ⟨0, 0, vz⟩⟩])
      = expectedScanFrom txNodeId txNode rangeSq j others ∧
    receiveWavePacket table rangeSq ⟨p, ⟨0, 0, vz⟩⟩ pkts st
      = { st with wavePktReceiveCount := st.wavePktReceiveCount + pkts.length } := by
  have hgen : generateWaveTraffic nodes rangeSq txNodeId pktSize pktCount st
      = some { st := st, sentPkts := [], socketClosed := false,
               next := some (pktCount - 1) } := by
    simp only [generateWaveTraffic, if_pos hpos, hget]
    simp
  exact ⟨by rw [hgen]; rfl, by rw [hgen]; rfl,
    expectedScanFrom_append_zvel txNodeId txNode ⟨q, ⟨0, 0, vz⟩⟩ rangeSq rfl rfl
      others j,
    receiveWavePacket_stationary table rangeSq ⟨p, ⟨0, 0, vz⟩⟩ pkts rfl rfl st⟩

/-- C10 witness: a node at (3, 4) with velocity (0, 0, 5): as sender (budget
1) it sends nothing and keeps the initial state; as an appended candidate it
leaves the scan count unchanged; as receiver of one in-range resolvable
beacon it counts it as received but not in coverage. -/
theorem C10_z_velocity_classified_stationary_witness :
    ((5 : ℚ) ≠ 0 ∧ 0 < 1 ∧ wNodesZ.get? 0 = some ⟨⟨3, 4, 0⟩, ⟨0, 0, 5⟩⟩) ∧
    (generateWaveTraffic wNodesZ 25 0 200 1 initState).map
        GenResult.st = some initState ∧
    (generateWaveTraffic wNodesZ 25 0 200 1 initState).map
        GenResult.sentPkts = some [] ∧
    expectedScanFrom 0 wTx 25 0 ([wTx2] ++ [⟨⟨3, 4, 0⟩, ⟨0, 0, 5⟩⟩])
      = expectedScanFrom 0 wTx 25 0 [wTx2] ∧
    receiveWavePacket wTable 25 ⟨⟨3, 4, 0⟩, ⟨0, 0, 5⟩⟩ [some 7] initState
      = { initState with
          wavePktReceiveCount := initState.wavePktReceiveCount + 1 } := by
  refine ⟨⟨by norm_num, by decide, rfl⟩, ?_⟩
  exact C10_z_velocity_classified_stationary ⟨3, 4, 0⟩ ⟨3, 4, 0⟩ 5 wNodesZ
    [wTx2] 25 0 200 1 0 initState wTx wTable [some 7] (by norm_num)
    (by decide) rfl

end VanetRC
